import Mathlib

/-!
Shallow embedding of the `next-supabase-api` route handlers.

Each handler is translated from its TypeScript source into a pure Lean
function.  External collaborators (the Supabase identity provider and the
relational store) are modelled explicitly: the tables the handlers read and
write become lists of rows threaded through the functions, and the outcome of
each external call that can fail is an oracle value passed in as part of an
environment record.  JavaScript `undefined` on optional request fields is
modelled as `Option`; Supabase/PostgREST drops `undefined`-valued keys when a
row object is serialised, so such columns are left untouched, which the
embeddings reflect with `Option.getD`.
-/

namespace Model

/-- A row of the `Profiles` table as used by the `/users` handlers
(`id, company_code, role, store_name, group`). -/
structure Profile where
  id : String
  company_code : String
  role : String
  store_name : Option String
  group : Option String
  deriving DecidableEq, Repr

/-- The resolved Supabase session: the handlers only ever use
`session.user.id`. -/
structure Session where
  userId : String
  deriving DecidableEq, Repr

/-- The external state mutated by the `/users` handlers: the Identity
Provider's set of auth identities (by user id) and the `Profiles` table. -/
structure World where
  identities : List String
  profiles : List Profile
  deriving DecidableEq, Repr

/-- `supabaseAdmin.from("Profiles").select(...).eq("id", id).single()`:
the first profile row whose `id` matches, if any. -/
def findProfile (profiles : List Profile) (id : String) : Option Profile :=
  profiles.find? (fun p => p.id == id)

/-- Effect of a `supabaseAdmin.auth.admin.deleteUser(id)` call on the
identity store: the identity with that id is removed. -/
def deleteIdentity (w : World) (id : String) : World :=
  { w with identities := w.identities.filter (fun i => i != id) }

end Model

namespace UsersApi

/-- Request body of `POST /users` (`CreateUserRequest`).  Absent optional
fields are `none`. -/
structure CreateUserRequest where
  companyCode : String
  password : String
  role : String
  storeName : Option String := none
  group : Option String := none
  deriving DecidableEq, Repr

/-- Oracle for the external calls made by `POST /users`:
the resolved session, whether `auth.admin.createUser` fails (and with which
message), the fresh user id it mints on success, and whether the `Profiles`
insert fails (and with which message). -/
structure ProvisionEnv where
  session : Option Model.Session
  createUserError : Option String
  newUserId : String
  insertError : Option String
  deriving DecidableEq, Repr

/-- Responses of `POST /users`: the error envelope `{ error }` with its HTTP
status, or the success envelope `{ success, message, userId }`. -/
inductive Response where
  | errRes (error : String) (status : Nat)
  | okUser (message : String) (userId : String)
  deriving DecidableEq, Repr

/-- `POST /users` (user provisioning).  Mirrors the source order: field
validation, session check, caller-role check, `auth.admin.createUser`,
`Profiles` insert, and on insert failure the compensating
`auth.admin.deleteUser` before the 400 response.  JS `||` fallbacks on the
error messages fire when the provider message is the empty string. -/
def POST (req : CreateUserRequest) (env : ProvisionEnv) (w : Model.World) :
    Response × Model.World :=
  if req.companyCode == "" || req.password == "" || req.role == "" then
    (.errRes "必須項目が不足しています" 400, w)
  else
    match env.session with
    | none => (.errRes "認証が必要です" 401, w)
    | some session =>
      match Model.findProfile w.profiles session.userId with
      | none => (.errRes "権限がありません" 403, w)
      | some currentUser =>
        if currentUser.role != "admin" then
          (.errRes "権限がありません" 403, w)
        else
          match env.createUserError with
          | some msg =>
            (.errRes (if msg == "" then "ユーザーの作成に失敗しました" else msg) 400, w)
          | none =>
            let userId := env.newUserId
            let w1 : Model.World := { w with identities := userId :: w.identities }
            match env.insertError with
            | some msg =>
              let w2 := Model.deleteIdentity w1 userId
              (.errRes (if msg == "" then "プロファイルの作成に失敗しました" else msg) 400, w2)
            | none =>
              let newProfile : Model.Profile :=
                { id := userId
                  company_code := req.companyCode
                  role := req.role
                  store_name := if req.role == "store" then req.storeName else none
                  group := req.group }
              (.okUser "ユーザーを作成しました" userId,
               { w1 with profiles := newProfile :: w1.profiles })

end UsersApi

namespace UserIdApi

/-- Responses of `PATCH`/`DELETE /users/{userId}`: the error envelope
`{ error, details? }` with its HTTP status, `{ success: true }` for a delete,
or `{ success: true, data }` with the updated profile for a patch. -/
inductive Response where
  | errRes (error : String) (status : Nat) (details : Option String)
  | okDelete
  | okProfile (data : Model.Profile)
  deriving DecidableEq, Repr

/-- HTTP status of a `/users/{userId}` response (success envelopes are sent
with the default status 200). -/
def respStatus : Response → Nat
  | .errRes _ s _ => s
  | .okDelete => 200
  | .okProfile _ => 200

/-- Environment of `DELETE /users/{userId}`.  The request carries the
session cookies (modelled by `session`), but the handler never reads them;
the two flags are the oracle outcomes of the external delete calls. -/
structure DeleteEnv where
  session : Option Model.Session
  authDeleteError : Bool
  profileDeleteError : Bool
  deriving DecidableEq, Repr

/-- Result of `DELETE /users/{userId}`: the response, the final external
state, and whether each of the two delete calls was actually issued. -/
structure DeleteResult where
  response : Response
  world : Model.World
  authDeleteInvoked : Bool
  profileDeleteInvoked : Bool
  deriving DecidableEq, Repr

/-- `DELETE /users/{userId}`.  Mirrors the source order: load the target
profile (404 on failure), refuse if the target's role is `admin` (403),
delete the auth identity (500 on failure), delete the profile row (500 on
failure), else `{ success: true }`. -/
def DELETE (env : DeleteEnv) (userId : String) (w : Model.World) : DeleteResult :=
  match Model.findProfile w.profiles userId with
  | none => ⟨.errRes "ユーザーの取得に失敗しました" 404 none, w, false, false⟩
  | some userToDelete =>
    if userToDelete.role == "admin" then
      ⟨.errRes "本部ユーザーは削除できません" 403 none, w, false, false⟩
    else if env.authDeleteError then
      ⟨.errRes "ユーザーの削除に失敗しました" 500 none, w, true, false⟩
    else
      let w1 := Model.deleteIdentity w userId
      if env.profileDeleteError then
        ⟨.errRes "プロフィールの削除に失敗しました" 500 none, w1, true, true⟩
      else
        ⟨.okDelete,
         { w1 with profiles := w1.profiles.filter (fun p => p.id != userId) },
         true, true⟩

/-- Request body of `PATCH /users/{userId}` (`UpdateUserRequest`); every
field is optional. -/
structure UpdateUserRequest where
  company_code : Option String := none
  password : Option String := none
  role : Option String := none
  store_name : Option String := none
  group : Option String := none
  deriving DecidableEq, Repr

/-- Oracle for the external calls of `PATCH /users/{userId}`: the resolved
session, whether `auth.admin.updateUserById` fails, and whether the
`Profiles` update fails (with the error message). -/
structure PatchEnv where
  session : Option Model.Session
  authUpdateError : Bool
  updateProfileError : Option String
  deriving DecidableEq, Repr

/-- The `updateData` object sent to `Profiles.update` by the PATCH handler,
applied to one row.  `undefined`-valued keys are dropped by serialisation,
so absent fields leave the column untouched; `store_name` is
`body.role === "store" ? body.store_name : null`, i.e. it is set to null
whenever the patch's `role` field is not the string `"store"`. -/
def applyProfileUpdate (body : UpdateUserRequest) (p : Model.Profile) : Model.Profile :=
  { p with
    company_code := body.company_code.getD p.company_code
    role := body.role.getD p.role
    store_name :=
      if body.role == some "store" then
        match body.store_name with
        | some s => some s
        | none => p.store_name
      else none
    group :=
      match body.group with
      | some g => some g
      | none => p.group }

/-- `PATCH /users/{userId}`.  Mirrors the source order: session check (401),
caller-role check (403), auth update when the body carries truthy
`company_code` or `password` material (500 on failure), then the `Profiles`
update with `.select().single()` — a failed update is a 500 with the error
message as `details`, and `single()` on no matching row is the PostgREST
no-rows error, also surfaced as the same 500. -/
def PATCH (env : PatchEnv) (userId : String) (body : UpdateUserRequest)
    (w : Model.World) : Response × Model.World :=
  match env.session with
  | none => (.errRes "認証が必要です" 401 none, w)
  | some session =>
    match Model.findProfile w.profiles session.userId with
    | none => (.errRes "権限がありません" 403 none, w)
    | some currentUser =>
      if currentUser.role != "admin" then
        (.errRes "権限がありません" 403 none, w)
      else
        let wantsAuthUpdate := body.company_code.getD "" != "" || body.password.getD "" != ""
        if wantsAuthUpdate && env.authUpdateError then
          (.errRes "認証情報の更新に失敗しました" 500 none, w)
        else
          match env.updateProfileError with
          | some msg => (.errRes "プロフィールの更新に失敗しました" 500 (some msg), w)
          | none =>
            match Model.findProfile w.profiles userId with
            | none =>
              (.errRes "プロフィールの更新に失敗しました" 500
                (some "JSON object requested, multiple (or no) rows returned"), w)
            | some target =>
              let profiles2 := w.profiles.map
                (fun p => if p.id == userId then applyProfileUpdate body p else p)
              (.okProfile (applyProfileUpdate body target), { w with profiles := profiles2 })

end UserIdApi

namespace CatalogMenu

/-- A row of the Prisma `MenuItem` table (headquarters catalog) with the
columns the PUT handler touches; `updated_at` is written on every update. -/
structure MenuItem where
  menu_id : Nat
  name : String
  price : Rat
  status : Bool
  description : Option String
  K : Bool
  other : Option String
  updated_at : Nat
  deriving DecidableEq, Repr

/-- Request body of `PUT /menu` (`UpdateMenuItemRequest`); `other` may be
present-and-null, hence the nested `Option`. -/
structure UpdateMenuItemRequest where
  name : String
  isActive : Option Bool := none
  price : Option Rat := none
  K : Option Bool := none
  other : Option (Option String) := none
  deriving DecidableEq, Repr

/-- The `data` object of the `updateMany` call applied to one row: each field
present in the body is written, absent fields are left untouched, and
`updated_at` is always set to the current time. -/
def applyUpdate (body : UpdateMenuItemRequest) (now : Nat) (row : MenuItem) : MenuItem :=
  { row with
    status := body.isActive.getD row.status
    price := body.price.getD row.price
    K := body.K.getD row.K
    other := body.other.getD row.other
    updated_at := now }

/-- `prisma.menuItem.findFirst({ where: { name } })`. -/
def findFirstByName (db : List MenuItem) (name : String) : Option MenuItem :=
  db.find? (fun r => r.name == name)

/-- `prisma.menuItem.updateMany({ where: { name }, data })`: the table after
the update, together with the affected-row count. -/
def updateManyByName (body : UpdateMenuItemRequest) (now : Nat) (db : List MenuItem) :
    List MenuItem × Nat :=
  (db.map (fun r => if r.name == body.name then applyUpdate body now r else r),
   (db.filter (fun r => r.name == body.name)).length)

/-- Responses of `PUT /menu`: the error envelope `{ error }` with its HTTP
status, or `{ success: true, updatedCount }`. -/
inductive PutResponse where
  | errRes (error : String) (status : Nat)
  | okCount (updatedCount : Nat)
  deriving DecidableEq, Repr

/-- `PUT /menu`.  The existence check (`findFirst`) and the update
(`updateMany`) are issued concurrently via `Promise.all` without a
transaction, so each call may observe its own snapshot of the `MenuItem`
table: `dbFind` for the lookup and `dbUpdate` for the update.  The handler
returns 404 when the lookup found nothing **or** the update affected zero
rows, and otherwise reports the affected-row count. -/
def PUT (body : UpdateMenuItemRequest) (now : Nat) (dbFind dbUpdate : List MenuItem) :
    PutResponse × List MenuItem :=
  let existingItem := findFirstByName dbFind body.name
  let updated := updateManyByName body now dbUpdate
  if existingItem.isNone || updated.2 == 0 then
    (.errRes "Available menu item not found" 404, updated.1)
  else
    (.okCount updated.2, updated.1)

end CatalogMenu

namespace StoreMenuApi

/-- A row of the `StoreItem` table as returned by `select("*")` for the GET
handler (the TS interface omits `store_id`, but the rows carry it and the
query filters on it). -/
structure StoreMenuItem where
  store_menu_item_id : Nat
  menu_id : Nat
  menu_name : String
  price : Rat
  status : Bool
  store_id : String
  deriving DecidableEq, Repr

/-- A row of the `MenuCsv` code-mapping table (`menu_sys, menu_code`). -/
structure MenuCsv where
  menu_sys : String
  menu_code : String
  deriving DecidableEq, Repr

/-- One record of the GET response payload (`TransformedMenuItem`). -/
structure TransformedMenuItem where
  id : Nat
  menuId : Nat
  menu_code : Option String
  name : String
  price : Rat
  isActive : Bool
  deriving DecidableEq, Repr

/-- The caller's profile row as selected by these handlers
(`select("company_id")`); the column is nullable. -/
structure StoreProfile where
  company_id : Option String
  deriving DecidableEq, Repr

/-- `menuItems?.filter((item, index, self) => index === self.findIndex(t =>
t.menu_id === item.menu_id))`: keep a row exactly when its index is the
first index holding its `menu_id`.  (JS `findIndex` returns -1 only when no
element matches, which cannot happen here since `item` itself is in `self`,
so `List.findIdx` agrees with it on this domain.) -/
def uniqueMenuItems (items : List StoreMenuItem) : List StoreMenuItem :=
  (items.enum.filter
    (fun p => items.findIdx (fun t => t.menu_id == p.2.menu_id) == p.1)).map Prod.snd

/-- The per-item transformation of the GET handler: join the row against
`MenuCsv` by string-matching `menu_id` to `menu_sys`. -/
def transformItem (menuCsvs : List MenuCsv) (item : StoreMenuItem) : TransformedMenuItem :=
  { id := item.store_menu_item_id
    menuId := item.menu_id
    menu_code := (menuCsvs.find? (fun csv => csv.menu_sys == toString item.menu_id)).map
      (fun csv => csv.menu_code)
    name := item.menu_name
    price := item.price
    isActive := item.status }

/-- Responses of `/menu-items`: the error envelope, the GET success
`{ success, data }`, or the PUT success `{ success, isActive? }`. -/
inductive Response where
  | errRes (error : String) (status : Nat)
  | okList (data : List TransformedMenuItem)
  | okUpdate (isActive : Option Bool)
  deriving DecidableEq, Repr

/-- Session/profile oracle shared by both `/menu-items` handlers: the
resolved session (session errors folded into `none`) and the result of the
caller's `Profiles` lookup. -/
structure StoreEnv where
  session : Option Model.Session
  profile : Option StoreProfile
  deriving DecidableEq, Repr

/-- The shared guard of both `/menu-items` handlers: 401 without a session,
404 when the caller's profile is missing or its `company_id` is falsy
(null or empty), 403 when `company_id` is the headquarters marker
`"admin"`; otherwise the caller's store id. -/
def storeGuard (env : StoreEnv) : Response ⊕ String :=
  match env.session with
  | none => Sum.inl (.errRes "Authentication required. Please log in to continue." 401)
  | some _ =>
    match env.profile with
    | none => Sum.inl (.errRes "Store profile not found. Please contact support." 404)
    | some profile =>
      match profile.company_id with
      | none => Sum.inl (.errRes "Store profile not found. Please contact support." 404)
      | some cid =>
        if cid == "" then
          Sum.inl (.errRes "Store profile not found. Please contact support." 404)
        else if cid == "admin" then
          Sum.inl (.errRes
            "Headquarters users should manage menus through the Available Menu page instead of the Menu Settings page."
            403)
        else Sum.inr cid

/-- `GET /menu-items`: guard, fetch the `StoreItem` rows scoped to the
caller's store and all `MenuCsv` rows, deduplicate by `menu_id`, transform. -/
def GET (env : StoreEnv) (storeItems : List StoreMenuItem) (menuCsvs : List MenuCsv) :
    Response :=
  match storeGuard env with
  | Sum.inl e => e
  | Sum.inr cid =>
    let menuItems := storeItems.filter (fun r => r.store_id == cid)
    .okList ((uniqueMenuItems menuItems).map (transformItem menuCsvs))

/-- A row of the `StoreMenuItem` table written by the PUT handler;
`updated_at` holds the ISO timestamp string written on every update. -/
structure StoreMenuRow where
  store_id : String
  menu_name : String
  price : Rat
  status : Bool
  updated_at : String
  deriving DecidableEq, Repr

/-- Request body of `PUT /menu-items` (`UpdateMenuItemRequest`). -/
structure UpdateStoreMenuItemRequest where
  name : String
  isActive : Option Bool := none
  price : Option Rat := none
  deriving DecidableEq, Repr

/-- The update object of the PUT handler applied to one row: when `isActive`
is present the persisted `status` is `!body.isActive` (the source's
documented inversion), `price` is written when present, and `updated_at` is
always set. -/
def applyStoreUpdate (body : UpdateStoreMenuItemRequest) (now : String)
    (r : StoreMenuRow) : StoreMenuRow :=
  { r with
    status := match body.isActive with
      | some b => !b
      | none => r.status
    price := body.price.getD r.price
    updated_at := now }

/-- Environment of `PUT /menu-items`: the shared guard oracle plus whether
the `StoreMenuItem` update fails. -/
structure StorePutEnv where
  store : StoreEnv
  updateError : Bool
  deriving DecidableEq, Repr

/-- `PUT /menu-items`: guard, update the `StoreMenuItem` rows matching the
caller's store and the given `menu_name` (500 on failure), and echo
`isActive` as `!body.isActive` when the field was present. -/
def PUT (env : StorePutEnv) (body : UpdateStoreMenuItemRequest) (now : String)
    (db : List StoreMenuRow) : Response × List StoreMenuRow :=
  match storeGuard env.store with
  | Sum.inl e => (e, db)
  | Sum.inr cid =>
    if env.updateError then
      (.errRes "Unable to update menu item. Please try again later." 500, db)
    else
      (.okUpdate (body.isActive.map (fun b => !b)),
       db.map (fun r =>
         if r.store_id == cid && r.menu_name == body.name then
           applyStoreUpdate body now r
         else r))

end StoreMenuApi

namespace IngredientsApi

/-- A row of the `Ingredient` table; the handler's select omits `store_id`
but filters on it. -/
structure IngredientRow where
  ingredient_id : Nat
  material_system_code : String
  name : String
  date : String
  quantity : Rat
  store_id : String
  deriving DecidableEq, Repr

/-- The selected ingredient payload
(`ingredient_id, material_system_code, name, date, quantity`). -/
structure Ingredient where
  ingredient_id : Nat
  material_system_code : String
  name : String
  date : String
  quantity : Rat
  deriving DecidableEq, Repr

/-- Projection of a table row onto the selected columns. -/
def projectIngredient (r : IngredientRow) : Ingredient :=
  { ingredient_id := r.ingredient_id
    material_system_code := r.material_system_code
    name := r.name
    date := r.date
    quantity := r.quantity }

/-- JavaScript `s.split(",")` on the underlying character list: always a
non-empty list of chunks; splitting the empty string yields `[[]]`, i.e.
one empty chunk, exactly as in JS. -/
def jsSplitCommaAux : List Char → List (List Char)
  | [] => [[]]
  | c :: rest =>
    if c = ',' then [] :: jsSplitCommaAux rest
    else
      match jsSplitCommaAux rest with
      | [] => [[c]]
      | h :: t => (c :: h) :: t

/-- JavaScript `s.split(",")`. -/
def jsSplitComma (s : String) : List String :=
  (jsSplitCommaAux s.data).map (fun l => String.mk l)

/-- `searchParams.get("weekDates")?.split(",") || []`: absent parameter
gives the empty list; a present parameter (even the empty string) is split,
which never yields an empty list. -/
def weekDatesOf (weekDatesParam : Option String) : List String :=
  match weekDatesParam with
  | none => []
  | some s => jsSplitComma s

/-- The session payload the handler reads: `user.user_metadata.company_code`
(possibly absent). -/
structure IngSession where
  company_code : Option String
  deriving DecidableEq, Repr

/-- The `data` object returned by `supabase.auth.getSession()`: the wrapper
`{ session }` whose inner `session` is null when no session exists.  The
wrapper itself is always a (truthy) object. -/
structure GetSessionData where
  session : Option IngSession
  deriving DecidableEq, Repr

/-- Responses of `GET /ingredients`. -/
inductive Response where
  | errRes (error : String) (status : Nat)
  | okData (data : List Ingredient)
  deriving DecidableEq, Repr

/-- Result of `GET /ingredients`: the response plus whether the `Ingredient`
table was queried. -/
structure GetResult where
  response : Response
  queriedIngredient : Bool
  deriving DecidableEq, Repr

/-- `GET /ingredients`.  The handler destructures
`const { data: session } = await supabase.auth.getSession()`, so its local
`session` is the **wrapper object** `{ session: ... }`, which is non-null
even when no session exists; the `if (!session)` 401 branch therefore tests
the wrapper and never fires.  `storeId` is then
`session.session?.user?.user_metadata?.company_code`, and the query runs
with `.eq("store_id", storeId)` — a missing `storeId` is serialised as the
literal string `"undefined"` in the PostgREST filter. -/
def GET (weekDatesParam : Option String) (sessionData : GetSessionData)
    (dbError : Bool) (db : List IngredientRow) : GetResult :=
  let weekDates := weekDatesOf weekDatesParam
  if weekDates.isEmpty then
    ⟨.errRes "Please provide week dates to fetch ingredients" 400, false⟩
  else
    let dataValue : Option GetSessionData := some sessionData
    match dataValue with
    | none => ⟨.errRes "Authentication required. Please log in to continue." 401, false⟩
    | some session =>
      let storeId : Option String := session.session.bind (fun s => s.company_code)
      if dbError then
        ⟨.errRes "Unable to fetch ingredients. Please try again later." 500, true⟩
      else
        let rows := db.filter
          (fun r => r.store_id == storeId.getD "undefined" && weekDates.contains r.date)
        ⟨.okData (rows.map projectIngredient), true⟩

end IngredientsApi

/-! Sample data used to instantiate the theorems on concrete inputs. -/

/-- A headquarters profile (`role = "admin"`). -/
def adminProfile : Model.Profile :=
  { id := "a1", company_code := "HQ", role := "admin", store_name := none, group := none }

/-- A store profile (`role = "store"`). -/
def storeProfile : Model.Profile :=
  { id := "s1", company_code := "S1", role := "store", store_name := some "Store 1",
    group := none }

/-- A world holding one admin and one store user. -/
def sampleWorld : Model.World :=
  { identities := ["a1", "s1"], profiles := [adminProfile, storeProfile] }

/-- A `POST /users` request for a new store user. -/
def sampleCreateReq : UsersApi.CreateUserRequest :=
  { companyCode := "S9", password := "pw", role := "store", storeName := some "Store 9",
    group := none }

/-- A provisioning oracle in which the identity is created but the profile
insert fails with a duplicate-key message. -/
def sampleProvisionEnv : UsersApi.ProvisionEnv :=
  { session := some ⟨"a1"⟩, createUserError := none, newUserId := "u-9",
    insertError := some "duplicate key" }

/-- A PATCH oracle with an admin session and no external failures. -/
def samplePatchEnv : UserIdApi.PatchEnv :=
  { session := some ⟨"a1"⟩, authUpdateError := false, updateProfileError := none }

/-- A catalog row used for the `PUT /menu` instantiations. -/
def sampleRow : CatalogMenu.MenuItem :=
  { menu_id := 1, name := "curry", price := 9, status := true, description := none,
    K := false, other := none, updated_at := 0 }

/-- A store-scoped session/profile oracle resolving to store `"S1"`. -/
def sampleStoreEnv : StoreMenuApi.StoreEnv :=
  { session := some ⟨"s1"⟩, profile := some ⟨some "S1"⟩ }

/-- The PUT variant of `sampleStoreEnv` with no update failure. -/
def sampleStorePutEnv : StoreMenuApi.StorePutEnv :=
  { store := sampleStoreEnv, updateError := false }

/-- A `StoreMenuItem` row of store `"S1"`. -/
def sampleStoreRow : StoreMenuApi.StoreMenuRow :=
  { store_id := "S1", menu_name := "curry", price := 9, status := false, updated_at := "t0" }

/-- `StoreItem` rows of store `"S1"` containing a duplicated `menu_id`. -/
def sampleStoreItems : List StoreMenuApi.StoreMenuItem :=
  [⟨10, 1, "curry", 9, true, "S1"⟩, ⟨11, 1, "curry", 8, false, "S1"⟩,
   ⟨12, 2, "soup", 5, true, "S1"⟩]

/-- A one-row `MenuCsv` mapping for menu id `1`. -/
def sampleCsvs : List StoreMenuApi.MenuCsv := [⟨"1", "C001"⟩]

/-- The GET payload produced from `sampleStoreItems` and `sampleCsvs`. -/
def sampleListData : List StoreMenuApi.TransformedMenuItem :=
  [⟨10, 1, some "C001", "curry", 9, true⟩, ⟨12, 2, none, "soup", 5, true⟩]

/-- An `Ingredient` row of store `"S1"`. -/
def sampleIngredientRow : IngredientsApi.IngredientRow :=
  ⟨1, "M1", "salt", "2025-01-01", 3, "S1"⟩

/-! Theorems. -/

/-- C1: when `POST /users` has created the auth identity (step 3) and the
`Profiles` insert then fails (step 4), the handler deletes the identity it
created before returning, answers HTTP 400 carrying the underlying cause,
and leaves no orphan: the new id is absent from the final identity store and
the `Profiles` table is unchanged. -/
theorem createUser_insertFailure_compensates
    (req : UsersApi.CreateUserRequest) (env : UsersApi.ProvisionEnv) (w : Model.World)
    (s : Model.Session) (caller : Model.Profile) (msg : String)
    (hval : (req.companyCode == "" || req.password == "" || req.role == "") = false)
    (hs : env.session = some s)
    (hc : Model.findProfile w.profiles s.userId = some caller)
    (hr : caller.role = "admin")
    (hcreate : env.createUserError = none)
    (hins : env.insertError = some msg)
    (hmsg : msg ≠ "") :
    (UsersApi.POST req env w).1 = .errRes msg 400 ∧
    env.newUserId ∉ (UsersApi.POST req env w).2.identities ∧
    (UsersApi.POST req env w).2.profiles = w.profiles ∧
    (UsersApi.POST req env w).2.identities =
      w.identities.filter (fun i => i != env.newUserId) := by
  unfold UsersApi.POST
  simp only [hval, hs, hc, hcreate, hins, hr, Bool.false_eq_true, if_false,
    bne_self_eq_false, Model.deleteIdentity]
  have hbeq : (msg == "") = false := beq_eq_false_iff_ne.mpr hmsg
  simp [hbeq, List.mem_filter]

/-- Witness for C1 at a concrete provisioning run. -/
theorem createUser_insertFailure_compensates_witness :
    (UsersApi.POST sampleCreateReq sampleProvisionEnv sampleWorld).1 =
      .errRes "duplicate key" 400 ∧
    sampleProvisionEnv.newUserId ∉
      (UsersApi.POST sampleCreateReq sampleProvisionEnv sampleWorld).2.identities ∧
    (UsersApi.POST sampleCreateReq sampleProvisionEnv sampleWorld).2.profiles =
      sampleWorld.profiles ∧
    (UsersApi.POST sampleCreateReq sampleProvisionEnv sampleWorld).2.identities =
      sampleWorld.identities.filter (fun i => i != sampleProvisionEnv.newUserId) :=
  createUser_insertFailure_compensates sampleCreateReq sampleProvisionEnv sampleWorld
    ⟨"a1"⟩ adminProfile "duplicate key" (by decide) rfl (by decide) rfl rfl rfl (by decide)

/-- C2: `DELETE /users/{userId}` on a target profile with `role = "admin"`
answers 403, invokes neither the auth delete nor the profile delete, and
leaves the external state unchanged, so both the identity and the profile
stay resolvable. -/
theorem deleteUser_admin_target_forbidden
    (env : UserIdApi.DeleteEnv) (userId : String) (w : Model.World) (p : Model.Profile)
    (hp : Model.findProfile w.profiles userId = some p)
    (hr : p.role = "admin") :
    (UserIdApi.DELETE env userId w).response =
      .errRes "本部ユーザーは削除できません" 403 none ∧
    (UserIdApi.DELETE env userId w).world = w ∧
    (UserIdApi.DELETE env userId w).authDeleteInvoked = false ∧
    (UserIdApi.DELETE env userId w).profileDeleteInvoked = false ∧
    Model.findProfile (UserIdApi.DELETE env userId w).world.profiles userId = some p := by
  unfold UserIdApi.DELETE
  simp [hp, hr]

/-- Witness for C2 at a concrete world. -/
theorem deleteUser_admin_target_forbidden_witness :
    (UserIdApi.DELETE ⟨none, false, false⟩ "a1" sampleWorld).response =
      .errRes "本部ユーザーは削除できません" 403 none ∧
    (UserIdApi.DELETE ⟨none, false, false⟩ "a1" sampleWorld).world = sampleWorld ∧
    (UserIdApi.DELETE ⟨none, false, false⟩ "a1" sampleWorld).authDeleteInvoked = false ∧
    (UserIdApi.DELETE ⟨none, false, false⟩ "a1" sampleWorld).profileDeleteInvoked = false ∧
    Model.findProfile (UserIdApi.DELETE ⟨none, false, false⟩ "a1" sampleWorld).world.profiles
      "a1" = some adminProfile :=
  deleteUser_admin_target_forbidden ⟨none, false, false⟩ "a1" sampleWorld adminProfile
    (by decide) rfl

/-- C3: `DELETE /users/{userId}` never consults the caller's session or
role: its entire result is unchanged under any change of the request's
session, and its status is 403 exactly when the **target** profile exists
with `role = "admin"`. -/
theorem deleteUser_no_caller_check :
    ∀ (s1 s2 : Option Model.Session) (aErr pErr : Bool) (userId : String) (w : Model.World),
    UserIdApi.DELETE ⟨s1, aErr, pErr⟩ userId w = UserIdApi.DELETE ⟨s2, aErr, pErr⟩ userId w ∧
    (UserIdApi.respStatus (UserIdApi.DELETE ⟨s1, aErr, pErr⟩ userId w).response = 403 ↔
      ∃ p, Model.findProfile w.profiles userId = some p ∧ p.role = "admin") := by
  intro s1 s2 aErr pErr userId w
  refine ⟨rfl, ?_⟩
  unfold UserIdApi.DELETE
  cases hp : Model.findProfile w.profiles userId with
  | none => simp [UserIdApi.respStatus]
  | some p =>
    by_cases hr : p.role = "admin"
    · simp [hr, UserIdApi.respStatus]
    · have hb : (p.role == "admin") = false := beq_eq_false_iff_ne.mpr hr
      cases aErr <;> cases pErr <;> simp [hb, hr, UserIdApi.respStatus]

/-- C4 counterexample: a PATCH whose body omits `role` (and every other
field), applied by an admin to a target whose existing role is `"store"`
with a non-null `store_name`, returns a profile whose `store_name` has been
forced to null — although the effective role (the existing role, since the
patch omits `role`) is `"store"`. -/
theorem updateUser_omitted_role_nulls_store_name_cex :
    storeProfile.role = "store" ∧
    storeProfile.store_name = some "Store 1" ∧
    (UserIdApi.PATCH samplePatchEnv "s1" {} sampleWorld).1 =
      .okProfile { id := "s1", company_code := "S1", role := "store",
                   store_name := none, group := none } := by decide

/-- C4 (amended): on the success path of `PATCH /users/{userId}` (admin
caller, external updates succeed, target row present) the updated profile is
`applyProfileUpdate body target`, whose `store_name` is forced to null
unless the **patch's** `role` field equals `"store"` — the target's existing
role is never consulted; when the patch's role is `"store"` and the patch
omits `store_name`, the stored `store_name` is kept. -/
theorem updateUser_store_name_follows_patch_role
    (env : UserIdApi.PatchEnv) (userId : String) (body : UserIdApi.UpdateUserRequest)
    (w : Model.World) (s : Model.Session) (caller target : Model.Profile)
    (hs : env.session = some s)
    (hc : Model.findProfile w.profiles s.userId = some caller)
    (hr : caller.role = "admin")
    (ha : env.authUpdateError = false)
    (hu : env.updateProfileError = none)
    (ht : Model.findProfile w.profiles userId = some target) :
    (UserIdApi.PATCH env userId body w).1 =
      .okProfile (UserIdApi.applyProfileUpdate body target) ∧
    (UserIdApi.applyProfileUpdate body target).store_name =
      (if body.role == some "store" then
        match body.store_name with
        | some s2 => some s2
        | none => target.store_name
      else none) := by
  constructor
  · unfold UserIdApi.PATCH
    simp [hs, hc, hr, ha, hu, ht]
  · rfl

/-- Witness for the amended C4 at a concrete patch that omits `role`. -/
theorem updateUser_store_name_follows_patch_role_witness :
    (UserIdApi.PATCH samplePatchEnv "s1" { group := some "g7" } sampleWorld).1 =
      .okProfile (UserIdApi.applyProfileUpdate { group := some "g7" } storeProfile) ∧
    (UserIdApi.applyProfileUpdate { group := some "g7" } storeProfile).store_name =
      (if ({ group := some "g7" } : UserIdApi.UpdateUserRequest).role == some "store" then
        match ({ group := some "g7" } : UserIdApi.UpdateUserRequest).store_name with
        | some s2 => some s2
        | none => storeProfile.store_name
      else none) :=
  updateUser_store_name_follows_patch_role samplePatchEnv "s1" { group := some "g7" }
    sampleWorld ⟨"a1"⟩ adminProfile storeProfile rfl (by decide) rfl rfl rfl (by decide)

/-- C5: a `PUT /menu-items` request whose body carries `isActive` and which
passes the session and store-scope checks persists `status = !isActive` on
every row of the caller's store matching the given name (all other columns
besides `price` and `updated_at` untouched) and echoes
`isActive = !isActive`; in particular `isActive = true` persists `false`
and echoes `false`. -/
theorem updateStoreMenuItem_inverts_isActive
    (env : StoreMenuApi.StorePutEnv) (body : StoreMenuApi.UpdateStoreMenuItemRequest)
    (now : String) (db : List StoreMenuApi.StoreMenuRow) (cid : String) (b : Bool)
    (hg : StoreMenuApi.storeGuard env.store = Sum.inr cid)
    (he : env.updateError = false)
    (hb : body.isActive = some b) :
    (StoreMenuApi.PUT env body now db).1 = .okUpdate (some (!b)) ∧
    (StoreMenuApi.PUT env body now db).2 =
      db.map (fun r =>
        if r.store_id == cid && r.menu_name == body.name then
          { r with status := !b, price := body.price.getD r.price, updated_at := now }
        else r) := by
  unfold StoreMenuApi.PUT
  simp [hg, he, hb, StoreMenuApi.applyStoreUpdate]

/-- Witness for C5: requesting `isActive = true` persists `status = false`
and echoes `isActive = false`. -/
theorem updateStoreMenuItem_inverts_isActive_witness :
    (StoreMenuApi.PUT sampleStorePutEnv { name := "curry", isActive := some true } "t1"
        [sampleStoreRow]).1 = .okUpdate (some false) ∧
    (StoreMenuApi.PUT sampleStorePutEnv { name := "curry", isActive := some true } "t1"
        [sampleStoreRow]).2 =
      [sampleStoreRow].map (fun r =>
        if r.store_id == "S1" && r.menu_name == "curry" then
          { r with status := false, price := r.price, updated_at := "t1" }
        else r) :=
  updateStoreMenuItem_inverts_isActive sampleStorePutEnv
    { name := "curry", isActive := some true } "t1" [sampleStoreRow] "S1" true
    (by decide) rfl rfl

/-- C6 counterexample: a `PUT /menu` call in which the name lookup finds an
existing row but the update counts zero affected rows (the two calls run
concurrently without a transaction, so their snapshots can differ) returns
404, not success — and hence 404 is not reserved to the no-matching-row
case. -/
theorem updateMenuItem_zero_count_found_404_cex :
    CatalogMenu.findFirstByName [sampleRow] "curry" = some sampleRow ∧
    (CatalogMenu.PUT { name := "curry" } 5 [sampleRow] []).1 =
      .errRes "Available menu item not found" 404 := by decide

/-- C6 (amended): `PUT /menu` returns 404 exactly when the name lookup found
no row **or** the update affected zero rows; in every other case it reports
success carrying the affected-row count (which is then nonzero). -/
theorem updateMenuItem_404_iff_not_found_or_zero_count :
    ∀ (body : CatalogMenu.UpdateMenuItemRequest) (now : Nat)
      (dbFind dbUpdate : List CatalogMenu.MenuItem),
    ((CatalogMenu.PUT body now dbFind dbUpdate).1 =
        .errRes "Available menu item not found" 404 ↔
      CatalogMenu.findFirstByName dbFind body.name = none ∨
        (CatalogMenu.updateManyByName body now dbUpdate).2 = 0) ∧
    ((CatalogMenu.PUT body now dbFind dbUpdate).1 =
        .errRes "Available menu item not found" 404 ∨
      (CatalogMenu.PUT body now dbFind dbUpdate).1 =
        .okCount (CatalogMenu.updateManyByName body now dbUpdate).2) := by
  intro body now dbFind dbUpdate
  simp only [CatalogMenu.PUT]
  constructor
  · split
    · next h =>
      simp only [Bool.or_eq_true, Option.isNone_iff_eq_none, beq_iff_eq] at h
      simp [h]
    · next h =>
      simp only [Bool.or_eq_true, Option.isNone_iff_eq_none, beq_iff_eq] at h
      push_neg at h
      simp [h]
  · split
    · exact Or.inl rfl
    · exact Or.inr rfl

/-- Every guard rejection of the `/menu-items` handlers is an error
envelope. -/
theorem storeGuard_inl_errRes (env : StoreMenuApi.StoreEnv) (e : StoreMenuApi.Response)
    (hg : StoreMenuApi.storeGuard env = Sum.inl e) :
    ∃ m s, e = .errRes m s := by
  unfold StoreMenuApi.storeGuard at hg
  repeat' split at hg
  any_goals cases hg
  all_goals exact ⟨_, _, rfl⟩

/-- The `filter`/`findIndex` deduplication keeps at most one row per
`menu_id`: two kept rows with equal `menu_id` have equal first-occurrence
index, hence are the same row. -/
theorem nodup_uniqueMenuItems_menuIds (items : List StoreMenuApi.StoreMenuItem) :
    ((StoreMenuApi.uniqueMenuItems items).map (fun r => r.menu_id)).Nodup := by
  unfold StoreMenuApi.uniqueMenuItems
  rw [List.map_map]
  apply List.Nodup.map_on
  · intro x hx y hy hxy
    have hxp := List.of_mem_filter hx
    have hyp := List.of_mem_filter hy
    have hxm := List.mem_enum_iff_getElem?.mp (List.mem_of_mem_filter hx)
    have hym := List.mem_enum_iff_getElem?.mp (List.mem_of_mem_filter hy)
    have hx1 : items.findIdx (fun t => t.menu_id == x.2.menu_id) = x.1 := eq_of_beq hxp
    have hy1 : items.findIdx (fun t => t.menu_id == y.2.menu_id) = y.1 := eq_of_beq hyp
    have hmid : x.2.menu_id = y.2.menu_id := hxy
    have hidx : x.1 = y.1 := by rw [← hx1, ← hy1, hmid]
    have hsome : some x.2 = some y.2 := by rw [← hxm, ← hym, hidx]
    exact Prod.ext hidx (Option.some.inj hsome)
  · exact List.Nodup.filter _ (List.Nodup.of_map Prod.fst (List.nodup_enum_map_fst items))

/-- The deduplicated list is an order-preserving subselection of the
fetched rows. -/
theorem uniqueMenuItems_sublist (items : List StoreMenuApi.StoreMenuItem) :
    (StoreMenuApi.uniqueMenuItems items).Sublist items := by
  unfold StoreMenuApi.uniqueMenuItems
  have h : ((items.enum.filter
      (fun p => items.findIdx (fun t => t.menu_id == p.2.menu_id) == p.1)).map
        Prod.snd).Sublist (items.enum.map Prod.snd) :=
    (List.filter_sublist items.enum).map Prod.snd
  rwa [List.enum_map_snd] at h

/-- C7: a successful `GET /menu-items` returns data with pairwise-distinct
`menuId`s; the payload is one output record per kept row of an
order-preserving subselection (the first-occurrence dedup) of the fetched
store rows. -/
theorem listStoreMenu_nodup_menuIds
    (env : StoreMenuApi.StoreEnv) (storeItems : List StoreMenuApi.StoreMenuItem)
    (menuCsvs : List StoreMenuApi.MenuCsv) (data : List StoreMenuApi.TransformedMenuItem)
    (h : StoreMenuApi.GET env storeItems menuCsvs = .okList data) :
    (data.map (fun t => t.menuId)).Nodup ∧
    ∃ kept : List StoreMenuApi.StoreMenuItem, kept.Sublist storeItems ∧
      data = kept.map (StoreMenuApi.transformItem menuCsvs) := by
  unfold StoreMenuApi.GET at h
  cases hg : StoreMenuApi.storeGuard env with
  | inl e =>
    rw [hg] at h
    dsimp only at h
    obtain ⟨m, st, rfl⟩ := storeGuard_inl_errRes env e hg
    cases h
  | inr cid =>
    rw [hg] at h
    dsimp only at h
    have hdata : data =
        (StoreMenuApi.uniqueMenuItems (storeItems.filter (fun r => r.store_id == cid))).map
          (StoreMenuApi.transformItem menuCsvs) := by
      cases h; rfl
    constructor
    · rw [hdata, List.map_map]
      exact nodup_uniqueMenuItems_menuIds _
    · exact ⟨_, (uniqueMenuItems_sublist _).trans (List.filter_sublist _), hdata⟩

/-- Witness for C7 on a fetch containing a duplicated `menu_id`. -/
theorem listStoreMenu_nodup_menuIds_witness :
    (sampleListData.map (fun t => t.menuId)).Nodup ∧
    ∃ kept : List StoreMenuApi.StoreMenuItem, kept.Sublist sampleStoreItems ∧
      sampleListData = kept.map (StoreMenuApi.transformItem sampleCsvs) :=
  listStoreMenu_nodup_menuIds sampleStoreEnv sampleStoreItems sampleCsvs sampleListData
    (by decide)

/-- JS `split` with a separator never produces an empty array. -/
theorem jsSplitCommaAux_ne_nil (l : List Char) : IngredientsApi.jsSplitCommaAux l ≠ [] := by
  induction l with
  | nil => simp [IngredientsApi.jsSplitCommaAux]
  | cons c rest ih =>
    simp only [IngredientsApi.jsSplitCommaAux]
    split
    · simp
    · split <;> simp

/-- `s.split(",")` is never the empty list, whatever the string. -/
theorem jsSplitComma_ne_nil (s : String) : IngredientsApi.jsSplitComma s ≠ [] := by
  unfold IngredientsApi.jsSplitComma
  simpa using jsSplitCommaAux_ne_nil s.data

/-- C8 counterexample: a **present but empty** `weekDates` parameter splits
into the one-element list `[""]`, passes the emptiness check, and the call
answers a success payload with an empty data list instead of the claimed
400. -/
theorem listIngredients_empty_param_not_rejected_cex :
    IngredientsApi.weekDatesOf (some "") = [""] ∧
    (IngredientsApi.GET (some "") ⟨some ⟨some "S1"⟩⟩ false []).response =
      .okData [] := by decide

/-- C8 (amended): `GET /ingredients` answers the `InvalidInput` 400 exactly
when the `weekDates` parameter is **absent**; a present parameter — even the
empty string — always splits into a non-empty list and is not rejected. -/
theorem listIngredients_400_iff_param_absent :
    ∀ (param : Option String) (sd : IngredientsApi.GetSessionData) (dbError : Bool)
      (db : List IngredientsApi.IngredientRow),
    ((IngredientsApi.GET param sd dbError db).response =
        .errRes "Please provide week dates to fetch ingredients" 400 ↔ param = none) := by
  intro param sd dbError db
  cases param with
  | none => simp [IngredientsApi.GET, IngredientsApi.weekDatesOf]
  | some s =>
    have hne : IngredientsApi.weekDatesOf (some s) ≠ [] := jsSplitComma_ne_nil s
    have hempty : (IngredientsApi.weekDatesOf (some s)).isEmpty = false := by
      cases hl : IngredientsApi.weekDatesOf (some s) with
      | nil => exact absurd hl hne
      | cons a l => rfl
    cases dbError <;> simp [IngredientsApi.GET, hempty]

/-- C9: the missing-session 401 branch of `GET /ingredients` is dead code:
the handler destructures the `getSession` result as `{ data: session }`, so
the value it tests is the always-truthy wrapper object.  With a valid
`weekDates` parameter and **no** session, the handler answers success with
empty data and still issues the `Ingredient` query (scoped to the literal
string `"undefined"`), instead of the claimed 401 with no query. -/
theorem listIngredients_missing_session_still_queries :
    (IngredientsApi.GET (some "2025-01-01") ⟨none⟩ false [sampleIngredientRow]).response =
      .okData [] ∧
    (IngredientsApi.GET (some "2025-01-01") ⟨none⟩ false
      [sampleIngredientRow]).queriedIngredient = true := by decide

/-- C10 counterexample: a price-only `PUT /menu` patch also overwrites the
matched row's `updated_at` column, so not every non-price field stays
byte-identical to its pre-update value. -/
theorem updateMenuItem_price_patch_updated_at_cex :
    sampleRow.updated_at = 0 ∧
    (CatalogMenu.PUT { name := "curry", price := some 13 } 7 [sampleRow] [sampleRow]).1 =
      .okCount 1 ∧
    (CatalogMenu.PUT { name := "curry", price := some 13 } 7 [sampleRow] [sampleRow]).2.map
      (fun r => r.updated_at) = [7] := by decide

/-- C10 (amended): a `PUT /menu` whose patch carries only `price` rewrites,
on every row matching the given name, exactly the `price` and `updated_at`
columns (the latter to the update time); every other field of matched rows,
and every unmatched row, is unchanged. -/
theorem updateMenuItem_price_patch_frame
    (body : CatalogMenu.UpdateMenuItemRequest) (p : Rat) (now : Nat)
    (dbFind dbUpdate : List CatalogMenu.MenuItem)
    (hp : body.price = some p) (hA : body.isActive = none) (hK : body.K = none)
    (hO : body.other = none) :
    (CatalogMenu.PUT body now dbFind dbUpdate).2 =
      dbUpdate.map (fun r =>
        if r.name == body.name then { r with price := p, updated_at := now } else r) := by
  have h2 : (CatalogMenu.PUT body now dbFind dbUpdate).2 =
      (CatalogMenu.updateManyByName body now dbUpdate).1 := by
    simp only [CatalogMenu.PUT]
    split <;> rfl
  rw [h2]
  unfold CatalogMenu.updateManyByName
  simp [CatalogMenu.applyUpdate, hp, hA, hK, hO]

/-- Witness for the amended C10 at a concrete price-only patch. -/
theorem updateMenuItem_price_patch_frame_witness :
    (CatalogMenu.PUT { name := "curry", price := some 13 } 7 [sampleRow] [sampleRow]).2 =
      [sampleRow].map (fun r =>
        if r.name == "curry" then { r with price := 13, updated_at := 7 } else r) :=
  updateMenuItem_price_patch_frame { name := "curry", price := some 13 } 13 7 [sampleRow]
    [sampleRow] rfl rfl rfl rfl
